import Mathlib

/-
Verification of the BabyNest conversational backend against its
natural-language specification.  The Python sources are shallowly
embedded: pure fragments become Lean functions, module-level effects
become explicit state or Except values, and calls into external
services (LLM, vector index, web search) are parameters giving the
outcome of the external call.
-/

namespace BabyNest

/-- Model of a Python runtime value, restricted to the shapes that occur
in the embedded fragments: None, strings, an unawaited coroutine object
(tagged by the function name and its argument), a plain class instance
(tagged by the class name), and a list of (user, assistant) string
pairs. -/
inductive PyVal where
  | pyNone : PyVal
  | pyStr : String → PyVal
  | coroutine : String → String → PyVal
  | instanceObj : String → PyVal
  | pairList : List (String × String) → PyVal
deriving DecidableEq, Repr

/-- Model of a Python exception, restricted to the kinds raised in the
embedded fragments. -/
inductive PyErr where
  | importErr : String → PyErr
  | attributeErr : String → PyErr
  | typeErr : PyErr
  | validationErr : PyErr
  | raised : PyErr
deriving DecidableEq, Repr

/-- Python equality test between an arbitrary value and a string
literal: only a string with the same characters compares equal; in
particular a coroutine object never equals a string. -/
def pyEqStr (v : PyVal) (s : String) : Bool :=
  match v with
  | .pyStr t => t == s
  | _ => false

/-- Character-list prefix test, used to embed the Python substring
operator. -/
def prefixEq : List Char → List Char → Bool
  | [], _ => true
  | _ :: _, [] => false
  | a :: as, b :: bs => a == b && prefixEq as bs

/-- Character-list substring test. -/
def subFind (needle : List Char) : List Char → Bool
  | [] => needle.isEmpty
  | c :: rest => prefixEq needle (c :: rest) || subFind needle rest

/-- Embeds the Python expression `needle in hay` on strings. -/
def strContains (hay needle : String) : Bool :=
  subFind needle.toList hay.toList

/-- Lower-cases one ASCII character, as Python str.lower does on the
ASCII inputs occurring here. -/
def lowerChar (c : Char) : Char :=
  if 65 ≤ c.toNat ∧ c.toNat ≤ 90 then Char.ofNat (c.toNat + 32) else c

/-- Embeds the Python string method lower(). -/
def strToLower (s : String) : String :=
  String.mk (s.toList.map lowerChar)

/- ------------------------------------------------------------------
C1 : routing in the chat endpoint (app.py, route_query and chat)
------------------------------------------------------------------ -/

/-- Embeds the keyword list of app.py line 93. -/
def health_keywords : List String :=
  ["symptoms", "pain", "doctor", "swollen", "vomiting", "bleeding", "postpartum"]

/-- Embeds app.py route_query (lines 66 to 96) as awaited: the router
chain outcome is the parameter `llmReply` (some reply, or none when the
model call raises).  On success the reply is stripped and lower-cased;
on failure the keyword fallback decides. -/
def route_query (llmReply : Option String) (user_request : String) : String :=
  match llmReply with
  | some decision => strToLower decision.trim
  | none =>
    if health_keywords.any (fun k => strContains (strToLower user_request) k) then
      "crewai"
    else
      "langchain"

/-- The two dispatch targets of the chat handler. -/
inductive ChatBranch where
  | crewai : ChatBranch
  | langchain : ChatBranch
deriving DecidableEq, Repr

/-- Embeds app.py line 114: `route = route_query(request.user_request)`.
The handler calls the async function without await, so the bound value
is the coroutine object, not the routing string. -/
def chatRouteVal (user_request : String) : PyVal :=
  .coroutine "route_query" user_request

/-- Embeds the dispatch of app.py lines 114 to 129: the branch taken by
the chat handler, comparing the (unawaited) value of route_query
against the string crewai. -/
def chatDispatch (user_request : String) : ChatBranch :=
  if pyEqStr (chatRouteVal user_request) "crewai" then .crewai else .langchain

/-- C1: the claim says a request whose routed decision is crewai is
dispatched to the crew kickoff.  In the code the router coroutine is
never awaited, so the comparison against crewai is always false and
every request, including one whose awaited routing decision would be
crewai, runs the general-chat branch; the crew is never invoked. -/
theorem c1_chat_never_dispatches_to_crew :
    (∀ u : String, chatDispatch u = ChatBranch.langchain) ∧
    route_query none "What are common pregnancy symptoms?" = "crewai" ∧
    chatDispatch "What are common pregnancy symptoms?" = ChatBranch.langchain := by
  refine ⟨fun u => rfl, by decide, rfl⟩

/- ------------------------------------------------------------------
C2 : the name stored_data is not defined by db_handler
------------------------------------------------------------------ -/

/-- The top-level names bound by src/db_handler.py after its module
body runs: imported names followed by assigned names, in source
order. -/
def db_handler_names : List String :=
  ["logging", "DirectoryLoader", "PDFPlumberLoader", "WebBaseLoader", "TextLoader",
   "Chroma", "GoogleGenerativeAIEmbeddings", "RecursiveCharacterTextSplitter",
   "load_dotenv", "Path", "os",
   "file", "logger", "project_root", "knowledge_directory", "db_directory",
   "GOOGLE_API_KEY", "resources_links", "web_loader", "pdf_loaders", "text_loader",
   "web_data", "pdf_data", "text_data", "embeddings",
   "text_splitter", "pdf_chunks", "web_chunks", "text_chunks", "chunks", "vectordb"]

/-- Embeds a Python `from module import a, b, ...` statement: each
requested name must be bound in the module namespace, otherwise the
statement raises ImportError on the first missing name. -/
def import_from (modNames : List String) (names : List String) : Except PyErr Unit :=
  match names with
  | [] => .ok ()
  | n :: rest =>
    if modNames.contains n then import_from modNames rest
    else .error (.importErr n)

/-- Embeds src/components.py line 7:
`from db_handler import stored_data, logger, text_splitter`. -/
def components_import_db : Except PyErr Unit :=
  import_from db_handler_names ["stored_data", "logger", "text_splitter"]

/-- Embeds src/babynest/src/babynest/crew.py line 10:
`from db_handler import logger, stored_data`. -/
def crew_import_db : Except PyErr Unit :=
  import_from db_handler_names ["logger", "stored_data"]

/-- Embeds the import chain of app.py: line 14 imports components
(which first executes its db_handler import) and line 17 imports crew;
the first failing step aborts module initialization. -/
def app_startup_imports : Except PyErr Unit := do
  components_import_db
  crew_import_db

/-- C2: db_handler binds the populated vector index to the name
vectordb and never binds stored_data, so the import of stored_data in
components.py (and in crew.py) raises ImportError, and the service
module fails before any endpoint can serve a request. -/
theorem c2_stored_data_import_fails :
    db_handler_names.contains "stored_data" = false ∧
    db_handler_names.contains "vectordb" = true ∧
    components_import_db = .error (.importErr "stored_data") ∧
    crew_import_db = .error (.importErr "stored_data") ∧
    app_startup_imports = .error (.importErr "stored_data") := by
  refine ⟨by decide, by decide, rfl, rfl, rfl⟩

/- ------------------------------------------------------------------
C3 : ChatRequest validation (babynest chat_models.py)
------------------------------------------------------------------ -/

/-- Embeds the pydantic model of src/babynest/src/babynest/chat_models.py:
both user_request and session_id are declared as plain required str
fields (no Optional, no default). -/
structure ChatRequest where
  user_request : String
  session_id : String
deriving DecidableEq, Repr

/-- Embeds pydantic validation of a request body against ChatRequest:
a field is the parsed value when present in the body, none when
absent; validation fails unless every required field is present. -/
def validate_chat_request (user_request session_id : Option String) :
    Except PyErr ChatRequest :=
  match user_request, session_id with
  | some u, some s => .ok ⟨u, s⟩
  | _, _ => .error .validationErr

/-- C3: the claim says a chat body omitting session_id is accepted and
given a fresh session identifier.  The pydantic model declares
session_id as a required field, so such a body is rejected as a
validation failure before the handler runs at all. -/
theorem c3_missing_session_id_rejected :
    validate_chat_request (some "hello") none = .error .validationErr ∧
    ∀ u : String, ∀ r : ChatRequest,
      validate_chat_request (some u) none ≠ .ok r := by
  refine ⟨rfl, fun u r h => by simp [validate_chat_request] at h⟩

/- ------------------------------------------------------------------
C4 and C10 : the end-session endpoint (app.py end_session) and the
adaptive-conversation summarizer (components.py)
------------------------------------------------------------------ -/

/-- One conversation turn: a (user text, assistant text) pair. -/
abbrev Turn := String × String

/-- The in-memory session store: a keyed map from session id to the
ordered turn list, keys unique. -/
abbrev SessionStore := List (String × List Turn)

/-- Embeds the Python expression `session_id in session_memory`
together with the read `session_memory[session_id]`. -/
def store_lookup (store : SessionStore) (sid : String) : Option (List Turn) :=
  match store with
  | [] => Option.none
  | (k, v) :: rest => if k == sid then some v else store_lookup rest sid

/-- Embeds `del session_memory[session_id]`. -/
def store_delete (store : SessionStore) (sid : String) : SessionStore :=
  match store with
  | [] => []
  | (k, v) :: rest => if k == sid then rest else (k, v) :: store_delete rest sid

/-- Embeds components.py summarize_conversation (lines 23 to 34).  The
def omits self, so its first parameter `history` receives whatever the
call site passes there; the body iterates history as (q, a) pairs.  If
history really is such a list, the summarization chain runs and its
outcome is the external parameter `llmReply`; any other value raises
TypeError at the iteration. -/
def summarize_conversation (history _summarizing_llm : PyVal)
    (llmReply : Except PyErr String) : Except PyErr String :=
  match history with
  | .pairList _ => llmReply
  | _ => .error .typeErr

/-- The adaptive_convo object constructed in app.py line 63. -/
def adaptive_convo_obj : PyVal := .instanceObj "AdaptiveConversation"

/-- Embeds the bound-method call of app.py line 238:
`adaptive_convo.summarize_conversation(conversation)`.  Because the
def has no self parameter, Python binds the instance itself to
`history` and the conversation list to the second parameter (the one
named summarizing_llm in the source). -/
def summarize_bound_call (conversation : List Turn)
    (llmReply : Except PyErr String) : Except PyErr String :=
  summarize_conversation adaptive_convo_obj (.pairList conversation) llmReply

/-- Embeds the bound-method call of app.py line 239:
`adaptive_convo.add_convo_history_to_db(summary)`.  The def
add_convo_history_to_db takes a single parameter, so the bound call
passes two positional arguments (the instance and the summary) and
raises TypeError before its body runs. -/
def persist_bound_call (_summary : String) : Except PyErr Unit :=
  .error .typeErr

/-- The four response shapes of the end_session handler. -/
inductive EndSessionResp where
  | notFound : EndSessionResp
  | emptySession : EndSessionResp
  | saved : String → EndSessionResp
  | saveFailed : EndSessionResp
deriving DecidableEq, Repr

/-- Status code and message of each end_session response, as written in
app.py lines 230, 235, 244 and 247. -/
def respMessage : EndSessionResp → Nat × String
  | .notFound => (404, "Session not found.")
  | .emptySession => (200, "Session was empty. No data saved.")
  | .saved _ => (200, "Session summarized and saved successfully.")
  | .saveFailed => (500, "Failed to save session data.")

/-- Embeds app.py end_session (lines 223 to 247), with the two calls
into the summarizer abstracted as parameters so that the handler
structure (lookup, empty check, try block, delete, error translation)
is explicit.  Returns the response together with the store left
behind. -/
def end_session (summarize : List Turn → Except PyErr String)
    (persist : String → Except PyErr Unit)
    (store : SessionStore) (sid : String) : EndSessionResp × SessionStore :=
  match store_lookup store sid with
  | Option.none => (.notFound, store)
  | some conversation =>
    if conversation.isEmpty then
      (.emptySession, store_delete store sid)
    else
      match summarize conversation with
      | .error _ => (.saveFailed, store)
      | .ok summary =>
        match persist summary with
        | .error _ => (.saveFailed, store)
        | .ok _ => (.saved summary, store_delete store sid)

/-- end_session as actually wired in app.py: the summarize and persist
steps are the bound-method calls above, with the summarization LLM
outcome as the external parameter. -/
def end_session_faithful (llmReply : Except PyErr String)
    (store : SessionStore) (sid : String) : EndSessionResp × SessionStore :=
  end_session (fun conv => summarize_bound_call conv llmReply)
    persist_bound_call store sid

/-- C4: the claim says a session with at least one turn is summarized,
persisted, deleted and answered with a success message.  In the code
the summarize call always raises TypeError (the def omits self, so the
instance object, not the turn list, arrives as the history argument),
hence every end_session call on a non-empty session answers the
500 response with detail Failed to save session data, the session is
retained, and the success response is unreachable for every LLM
outcome.  The not-found and empty branches do behave as claimed. -/
theorem c4_end_session_nonempty_always_fails :
    (∀ llmReply : Except PyErr String,
      end_session_faithful llmReply [("s1", [("hi", "hello")])] "s1" =
        (.saveFailed, [("s1", [("hi", "hello")])])) ∧
    respMessage .saveFailed = (500, "Failed to save session data.") ∧
    (∀ llmReply : Except PyErr String, ∀ store : SessionStore, ∀ sid : String,
      ∀ summary : String,
        (end_session_faithful llmReply store sid).1 ≠ .saved summary) ∧
    end_session_faithful (.ok "sum") [] "s1" = (.notFound, []) ∧
    end_session_faithful (.ok "sum") [("s1", [])] "s1" = (.emptySession, []) := by
  refine ⟨fun llmReply => rfl, rfl, ?_, rfl, rfl⟩
  intro llmReply store sid summary
  unfold end_session_faithful end_session
  cases h : store_lookup store sid with
  | none => simp
  | some conv =>
    by_cases he : conv.isEmpty <;>
      simp [he, summarize_bound_call, summarize_conversation, adaptive_convo_obj]

/-- C10: if summarization raises, or summarization succeeds and
persistence raises, the handler answers the 500 response and the store
is returned unchanged: the session entry is not deleted and its turn
list is intact, so a later end-session call still finds the full
conversation.  Deletion happens only on the success path after both
steps. -/
theorem c10_end_session_failure_preserves_session
    (summarize : List Turn → Except PyErr String)
    (persist : String → Except PyErr Unit)
    (store : SessionStore) (sid : String) (conv : List Turn)
    (h1 : store_lookup store sid = some conv)
    (h2 : conv.isEmpty = false)
    (h3 : (∃ e, summarize conv = .error e) ∨
          (∃ s, summarize conv = .ok s ∧ ∃ e, persist s = .error e)) :
    end_session summarize persist store sid = (.saveFailed, store) := by
  unfold end_session
  rw [h1]
  simp only [h2, Bool.false_eq_true, if_false]
  rcases h3 with ⟨e, he⟩ | ⟨s, hs, e, hp⟩
  · rw [he]
  · simp [hs, hp]

/-- Closed instance of the previous theorem at a concrete store,
session and summarizer. -/
theorem c10_witness :
    end_session (fun _ => .error .typeErr) (fun _ => .ok ())
      [("s1", [("a", "b")])] "s1" = (.saveFailed, [("s1", [("a", "b")])]) :=
  c10_end_session_failure_preserves_session _ _ _ _ [("a", "b")]
    rfl rfl (Or.inl ⟨.typeErr, rfl⟩)

/- ------------------------------------------------------------------
C5 : the crew-facing RAG tool (crew.py rag_tool)
------------------------------------------------------------------ -/

/-- Embeds crew.py rag_tool (lines 27 to 34).  The parameter is the
outcome of `stored_data.invoke(query)`.  On success the result is
discarded and the function body ends without a return statement, so
Python returns None; on an exception the literal fallback string is
returned. -/
def rag_tool (invokeResult : Except PyErr String) : PyVal :=
  match invokeResult with
  | .ok _ => .pyNone
  | .error _ => .pyStr "No relevant documents found"

/-- C5: the claim says the tool returns the index result when
non-empty and the string No relevant documents found in the db when
empty.  In the code the success path discards the result and falls off
the end of the function, returning None; neither the result nor the
in-the-db string is ever returned.  The exception path does return the
fallback string without propagating the error. -/
theorem c5_rag_tool_returns_none_on_success :
    rag_tool (.ok "retrieved text") = .pyNone ∧
    rag_tool (.ok "retrieved text") ≠ .pyStr "retrieved text" ∧
    (∀ r : String, rag_tool (.ok r) ≠ .pyStr "No relevant documents found in the db") ∧
    (∀ e : PyErr, rag_tool (.error e) = .pyStr "No relevant documents found") := by
  refine ⟨rfl, by decide, fun r h => by simp [rag_tool] at h, fun e => rfl⟩

/- ------------------------------------------------------------------
C6 : rate limiting (app.py limiter wiring)
------------------------------------------------------------------ -/

/-- The two candidate handlers for RateLimitExceeded present in
app.py: the custom handler defined at lines 40 to 47, and the library
default imported from slowapi at line 9. -/
inductive RateLimitHandler where
  | customHandler : RateLimitHandler
  | slowapiDefault : RateLimitHandler
deriving DecidableEq, Repr

/-- The response body built by custom_rate_limit_exceeded_handler:
status 429 and a one-field JSON object, given as (status, key, value). -/
def custom_rate_limit_body : Nat × String × String :=
  (429, "detail", "Sorry, you have exceeded the rate limit (5/minute)")

/-- Modelled from the slowapi library (third-party, not under src):
its default handler answers 429 with a one-field JSON object keyed
error, carrying the limit description for the 5/minute default. -/
def slowapi_default_body : Nat × String × String :=
  (429, "error", "Rate limit exceeded: 5 per 1 minute")

/-- Embeds app.py line 50: the handler registered for
RateLimitExceeded is the imported library default, not the custom
handler defined directly above it. -/
def registered_rate_limit_handler : RateLimitHandler := .slowapiDefault

/-- Response produced by each handler. -/
def handler_response : RateLimitHandler → Nat × String × String
  | .customHandler => custom_rate_limit_body
  | .slowapiDefault => slowapi_default_body

/-- The response an over-limit request actually receives: the one of
the registered handler. -/
def rate_limit_response : Nat × String × String :=
  handler_response registered_rate_limit_handler

/-- Embeds the 5/minute default limit of app.py line 29: a request is
allowed when fewer than 5 requests from the same address happened in
the current minute window. -/
def request_allowed (priorRequestsInWindow : Nat) : Bool :=
  priorRequestsInWindow < 5

/-- C6: the claim says the 6th request in a minute gets exactly the
body with key detail and the Sorry text.  The 6th request is indeed
rejected, but app.py registers the slowapi default handler for
RateLimitExceeded, so the body produced is the library default one;
the custom handler that would produce the claimed body is defined yet
never registered. -/
theorem c6_custom_rate_limit_handler_not_registered :
    request_allowed 4 = true ∧
    request_allowed 5 = false ∧
    registered_rate_limit_handler ≠ .customHandler ∧
    rate_limit_response ≠ custom_rate_limit_body ∧
    handler_response .customHandler =
      (429, "detail", "Sorry, you have exceeded the rate limit (5/minute)") := by
  refine ⟨rfl, rfl, by decide, by decide, rfl⟩

/- ------------------------------------------------------------------
C7 : failure semantics of the ingestion module (db_handler.py)
------------------------------------------------------------------ -/

/-- Outcome of each external stage of the ingestion run: whether the
document load, the embedding construction, the chunking pass and the
index population each succeed. -/
structure IngestOutcome where
  loadOk : Bool
  embedOk : Bool
  chunkOk : Bool
  persistOk : Bool

/-- Which module-level names are bound after the db_handler module
body finishes: embeddings (line 57), chunks (line 69) and vectordb
(line 79). -/
structure DbModuleState where
  embeddingsDefined : Bool
  chunksDefined : Bool
  vectordbDefined : Bool
deriving DecidableEq, Repr

/-- Embeds the module body of src/db_handler.py, lines 46 to 86.  The
load block re-raises on failure (its except clause ends in raise).
The embedding block, the chunking block and the persistence block only
log on failure: execution continues with the corresponding name left
unbound.  The persistence expression reads embeddings and chunks, so
when either is unbound it raises NameError, which its own except
clause also swallows; vectordb is bound only when all three inputs
succeeded. -/
def db_handler_run (o : IngestOutcome) : Except PyErr DbModuleState :=
  if o.loadOk then
    .ok ⟨o.embedOk, o.chunkOk, o.embedOk && o.chunkOk && o.persistOk⟩
  else
    .error .raised

/-- C7, counterexample: at a run where loading succeeds and the
embedding stage fails (and likewise one where only persistence fails),
module execution completes normally, so the exception does not
propagate and process start-up does not fail there, contrary to the
claim. -/
theorem c7_embed_failure_not_propagated :
    db_handler_run ⟨true, false, true, true⟩ = .ok ⟨false, true, false⟩ ∧
    db_handler_run ⟨true, true, true, false⟩ = .ok ⟨true, true, false⟩ :=
  ⟨rfl, rfl⟩

/-- C7, amended: a failure in the document-loading stage is re-raised
and fatal; failures of the embedding, chunking or persistence stages
are logged and swallowed, the module body completes normally, and only
the affected names (and vectordb, which needs all of them) are left
unbound. -/
theorem c7_amended_failure_semantics (e c p : Bool) :
    db_handler_run ⟨false, e, c, p⟩ = .error .raised ∧
    db_handler_run ⟨true, e, c, p⟩ = .ok ⟨e, c, e && c && p⟩ :=
  ⟨rfl, rfl⟩

/- ------------------------------------------------------------------
C8 : chunking a 5000-character document (db_handler.py text_splitter)
------------------------------------------------------------------ -/

/-- Modelled from the spec: the recursive character splitter itself is
third-party library code not present under src; db_handler.py line 65
only configures it with chunk size 2000 and overlap 20.  Following the
spec words (fixed-size slices of at most 2000 characters, 20
characters of overlap between consecutive chunks), a document longer
than 2000 characters yields its first 2000 characters and the
splitting of the rest starting 20 characters before the cut. -/
def split_text (l : List Char) : List (List Char) :=
  if _h : l.length ≤ 2000 then [l]
  else l.take 2000 :: split_text (l.drop 1980)
termination_by l.length
decreasing_by simp only [List.length_drop]; omega

/-- The last n characters of a chunk. -/
def lastChars (n : Nat) (l : List Char) : List Char :=
  l.drop (l.length - n)

/-- C8: splitting any document of exactly 5000 characters with the
configured splitter yields exactly 3 chunks, and the last 20
characters of each non-final chunk equal the first 20 characters of
the next chunk. -/
theorem c8_split_5000_three_chunks (l : List Char) (h : l.length = 5000) :
    split_text l = [l.take 2000, (l.drop 1980).take 2000, (l.drop 1980).drop 1980] ∧
    (split_text l).length = 3 ∧
    lastChars 20 (l.take 2000) = ((l.drop 1980).take 2000).take 20 ∧
    lastChars 20 ((l.drop 1980).take 2000) = ((l.drop 1980).drop 1980).take 20 := by
  have hsplit : split_text l =
      [l.take 2000, (l.drop 1980).take 2000, (l.drop 1980).drop 1980] := by
    rw [split_text, dif_neg (by omega),
        split_text, dif_neg (by simp only [List.length_drop, h]; omega),
        split_text, dif_pos (by simp only [List.length_drop, h]; omega)]
  refine ⟨hsplit, by rw [hsplit]; rfl, ?_, ?_⟩
  · have hlen : (l.take 2000).length = 2000 := by
      simp only [List.length_take, h]; omega
    rw [lastChars, hlen, List.drop_take, List.take_take]
    norm_num
  · have hlen : ((l.drop 1980).take 2000).length = 2000 := by
      simp only [List.length_take, List.length_drop, h]; omega
    rw [lastChars, hlen, List.drop_take]

/-- Closed instance of the chunking theorem at a concrete
5000-character document. -/
theorem c8_split_witness :
    (split_text (List.replicate 5000 'a')).length = 3 :=
  (c8_split_5000_three_chunks (List.replicate 5000 'a') (by rw [List.length_replicate])).2.1

/- ------------------------------------------------------------------
C9 : crew construction and final-summary ordering (crew.py)
------------------------------------------------------------------ -/

/-- The task methods defined on the Babynest class by the task
decorator, under their Python method names (crew.py lines 127 to
174). -/
def babynest_task_methods : List String :=
  ["ai_support_task", "postpartum_support", "testimonial_finder", "final_summary"]

/-- The agent methods defined on the Babynest class (crew.py lines 81
to 121). -/
def babynest_agent_methods : List String :=
  ["maternal_health_researcher", "personalized_guidance",
   "community_testimonials", "summarizer", "moderator"]

/-- Every attribute resolvable on a Babynest instance. -/
def babynest_methods : List String :=
  babynest_task_methods ++ babynest_agent_methods ++ ["crew"]

/-- Embeds Python attribute lookup `self.<name>` on a Babynest
instance: the name must be one of the defined methods, otherwise
AttributeError is raised. -/
def getattr_babynest (name : String) : Except PyErr String :=
  if babynest_methods.contains name then .ok name else .error (.attributeErr name)

/-- Embeds the task-list construction of crew.py lines 184 to 189: the
crew method builds its sequential task list by calling
self.health_support(), self.postpartum_support(),
self.testimonial_finder() and self.final_summary() in that order. -/
def crew_task_list : Except PyErr (List String) := do
  let t1 ← getattr_babynest "health_support"
  let t2 ← getattr_babynest "postpartum_support"
  let t3 ← getattr_babynest "testimonial_finder"
  let t4 ← getattr_babynest "final_summary"
  .ok [t1, t2, t3, t4]

/-- C9: the claim orders the final-summary output after the three
dependency tasks for every execution of the crew.  But the crew method
looks up a task method named health_support, while the class defines
it under the name ai_support_task; the lookup raises AttributeError,
so the crew is never constructed and no execution of it can occur at
all. -/
theorem c9_crew_construction_attribute_error :
    crew_task_list = .error (.attributeErr "health_support") ∧
    babynest_methods.contains "health_support" = false ∧
    babynest_methods.contains "ai_support_task" = true := by
  refine ⟨rfl, by decide, by decide⟩

end BabyNest
